import Mathlib

/-!
Formal model of the `tauri-plugin-mcp-client` core, embedded from the Rust
sources `src/error.rs`, `src/process.rs`, and `src/registry.rs`.

The embedding is shallow: pure Rust functions become Lean functions, the
stateful `MCPProcess` and `ConnectionRegistry` objects become explicit
state-passing functions, and interactions with the operating system (child
spawning, pipe reads and writes, the stderr channel) are parameterized by
explicit environment values that list the outcomes the OS would deliver.
Machine integers are modelled as `Nat` with explicit reduction modulo `2^32`
where the Rust code uses a wrapping `AtomicU32`.
-/

/-- ASCII single-quote character (code 39), as used by the Rust format strings
that quote a command or resource name. -/
def quoteChar : Char := Char.ofNat 39

/-- Single-quote as a one-character string, for building quoted messages. -/
def sQuote : String := String.mk [quoteChar]

/-- Error categories for classification (`enum ErrorCategory` in `error.rs`). -/
inductive ErrorCategory where
  | Connection
  | Permission
  | Timeout
  | Protocol
  | Command
  | Configuration
  | Database
  | System
deriving DecidableEq, Repr

/-- Display form of a category (`impl fmt::Display for ErrorCategory`). -/
def ErrorCategory.display : ErrorCategory → String
  | .Connection => "CONNECTION"
  | .Permission => "PERMISSION"
  | .Timeout => "TIMEOUT"
  | .Protocol => "PROTOCOL"
  | .Command => "COMMAND"
  | .Configuration => "CONFIGURATION"
  | .Database => "DATABASE"
  | .System => "SYSTEM"

/-- Structured error with category, code, message, and context
(`struct ProtocollieError` in `error.rs`; the same value type appears as
`MCPClientError` in `registry.rs`). -/
structure ProtocollieError where
  category : ErrorCategory
  code : String
  message : String
  details : Option String
  suggestions : List String
deriving DecidableEq, Repr

/-- Constructor `ProtocollieError::new`. -/
def ProtocollieError.new (category : ErrorCategory) (code : String)
    (message : String) : ProtocollieError :=
  ⟨category, code, message, none, []⟩

/-- Builder `ProtocollieError::with_details`: note that it REPLACES the
current `details` field rather than appending to it. -/
def ProtocollieError.with_details (e : ProtocollieError) (details : String) :
    ProtocollieError :=
  { e with details := some details }

/-- Builder `ProtocollieError::with_suggestion`. -/
def ProtocollieError.with_suggestion (e : ProtocollieError) (s : String) :
    ProtocollieError :=
  { e with suggestions := e.suggestions ++ [s] }

/-- Builder `ProtocollieError::with_suggestions`. -/
def ProtocollieError.with_suggestions (e : ProtocollieError) (ss : List String) :
    ProtocollieError :=
  { e with suggestions := e.suggestions ++ ss }

/-- Factory `ProtocollieError::command_not_found`. -/
def ProtocollieError.command_not_found (command : String) : ProtocollieError :=
  (((ProtocollieError.new .Command "CMD_NOT_FOUND"
      ("Command " ++ sQuote ++ command ++ sQuote ++ " not found")).with_details
      ("The command " ++ sQuote ++ command ++ sQuote ++
        " is not installed or not in your PATH")).with_suggestions
    [ "Install Node.js if using " ++ sQuote ++ command ++ sQuote ++ " or " ++ sQuote ++
        "npx" ++ sQuote ++ " commands",
      "Check that the command is installed and accessible",
      "Verify your PATH environment variable includes the command location" ])

/-- Factory `ProtocollieError::permission_denied`. -/
def ProtocollieError.permission_denied (resource : String) : ProtocollieError :=
  (((ProtocollieError.new .Permission "PERMISSION_DENIED"
      ("Permission denied accessing " ++ resource)).with_details
      ("You don" ++ sQuote ++ "t have permission to access " ++ resource)).with_suggestions
    [ "Check file permissions for the resource",
      "Run with appropriate user permissions",
      "Verify you have execute permissions for the command" ])

/-- Factory `ProtocollieError::connection_timeout`. -/
def ProtocollieError.connection_timeout (target : String) (timeout_ms : Nat) :
    ProtocollieError :=
  (((ProtocollieError.new .Timeout "CONNECTION_TIMEOUT"
      ("Connection to " ++ target ++ " timed out after " ++
        toString timeout_ms ++ "ms")).with_details
      ("The server did not respond within " ++ toString timeout_ms ++
        "ms")).with_suggestions
    [ "Check if the server is running",
      "Verify network connectivity",
      "Try increasing the timeout value" ])

/-- Factory `ProtocollieError::protocol_error`. -/
def ProtocollieError.protocol_error (details : String) : ProtocollieError :=
  (((ProtocollieError.new .Protocol "PROTOCOL_ERROR"
      "Invalid MCP protocol response").with_details details).with_suggestions
    [ "Verify the server implements MCP protocol correctly",
      "Check server logs for protocol errors",
      "Ensure server and client protocol versions are compatible" ])

/-- Factory `ProtocollieError::configuration_error`. -/
def ProtocollieError.configuration_error (field : String) (details : String) :
    ProtocollieError :=
  (((ProtocollieError.new .Configuration "CONFIG_ERROR"
      ("Invalid configuration for " ++ field)).with_details details).with_suggestions
    [ "Check the configuration format",
      "Verify all required fields are provided",
      "Review configuration examples in documentation" ])

/-- Factory `ProtocollieError::database_error`. -/
def ProtocollieError.database_error (operation : String) (details : String) :
    ProtocollieError :=
  (((ProtocollieError.new .Database "DATABASE_ERROR"
      ("Database " ++ operation ++ " failed")).with_details details).with_suggestions
    [ "Restart the application to reinitialize database",
      "Check available disk space",
      "Verify database file permissions" ])

/-- Factory `ProtocollieError::system_error`. -/
def ProtocollieError.system_error (details : String) : ProtocollieError :=
  (((ProtocollieError.new .System "SYSTEM_ERROR"
      "System operation failed").with_details details).with_suggestions
    [ "Check system resources (memory, disk space)",
      "Verify system permissions",
      "Try restarting the application" ])

/-- Lowercasing of a string, modelling `str::to_lowercase` on the ASCII
patterns the classifier uses. -/
def toLowerStr (s : String) : String := String.mk (s.data.map Char.toLower)

/-- Whether the first list is an initial segment of the second. -/
def leadsWith : List Char → List Char → Bool
  | [], _ => true
  | _ :: _, [] => false
  | p :: ps, c :: cs => p == c && leadsWith ps cs

/-- Whether `pat` occurs as a contiguous sublist of the second argument,
modelling `str::contains` with a string pattern. -/
def containsSub (pat : List Char) : List Char → Bool
  | [] => leadsWith pat []
  | c :: t => leadsWith pat (c :: t) || containsSub pat t

/-- String-level substring test (`str::contains`). -/
def strContains (hay pat : String) : Bool := containsSub pat.data hay.data

/-- Drop everything up to and including the first single-quote; `none` when no
quote occurs (the `error.find` step of the extractors in `error.rs`). -/
def afterQuote : List Char → Option (List Char)
  | [] => none
  | c :: t => if c == quoteChar then some t else afterQuote t

/-- Take everything before the next single-quote; `none` when no quote occurs
(the second `find` step of the extractors in `error.rs`). -/
def beforeQuote : List Char → Option (List Char)
  | [] => none
  | c :: t => if c == quoteChar then some [] else (beforeQuote t).map (fun l => c :: l)

/-- Function `extract_command_from_error`: the token between the first two
single-quotes of the message, when both quotes exist. -/
def extract_command_from_error (err : String) : Option String :=
  (afterQuote err.data).bind fun t => (beforeQuote t).map String.mk

/-- Function `extract_resource_from_error` (identical logic). -/
def extract_resource_from_error (err : String) : Option String :=
  (afterQuote err.data).bind fun t => (beforeQuote t).map String.mk

/-- Classifier `analyze_error` from `error.rs`: lowercase the input and test
the pattern groups in the source order. -/
def analyze_error (error_str : String) : ProtocollieError :=
  let error_lower := toLowerStr error_str
  if strContains error_lower "no such file or directory" ||
      strContains error_lower "command not found" then
    ProtocollieError.command_not_found
      ((extract_command_from_error error_str).getD "unknown")
  else if strContains error_lower "permission denied" then
    ProtocollieError.permission_denied
      ((extract_resource_from_error error_str).getD "resource")
  else if strContains error_lower "timeout" then
    ProtocollieError.connection_timeout "server" 5000
  else if strContains error_lower "invalid json" ||
      strContains error_lower "protocol" ||
      strContains error_lower "json-rpc" then
    ProtocollieError.protocol_error error_str
  else if strContains error_lower "database" || strContains error_lower "sqlite" then
    ProtocollieError.database_error "operation" error_str
  else if strContains error_lower "config" || strContains error_lower "missing" ||
      strContains error_lower "invalid" then
    ProtocollieError.configuration_error "field" error_str
  else
    ProtocollieError.system_error error_str

/-- One rule of the specification-side classifier: a set of substring patterns
together with the category and code the rule assigns. -/
structure ClassifierRule where
  patterns : List String
  category : ErrorCategory
  code : String

/-- Specification-side rule table, in the fixed order stated by the spec:
command-not-found, permission, timeout, protocol, database, configuration. -/
def classifierRules : List ClassifierRule :=
  [ ⟨["no such file or directory", "command not found"], .Command, "CMD_NOT_FOUND"⟩,
    ⟨["permission denied"], .Permission, "PERMISSION_DENIED"⟩,
    ⟨["timeout"], .Timeout, "CONNECTION_TIMEOUT"⟩,
    ⟨["invalid json", "protocol", "json-rpc"], .Protocol, "PROTOCOL_ERROR"⟩,
    ⟨["database", "sqlite"], .Database, "DATABASE_ERROR"⟩,
    ⟨["config", "missing", "invalid"], .Configuration, "CONFIG_ERROR"⟩ ]

/-- Specification-side classifier: lowercase the input, return the category
and code of the FIRST rule one of whose patterns occurs in it, and
`SYSTEM_ERROR` when no rule matches. -/
def classifySpec (s : String) : ErrorCategory × String :=
  let low := toLowerStr s
  match classifierRules.find? (fun r => r.patterns.any (fun p => strContains low p)) with
  | some r => (r.category, r.code)
  | none => (.System, "SYSTEM_ERROR")

/-- JSON values (`serde_json::Value`); numbers are modelled as integers, which
covers every numeric value the client reads or writes. -/
inductive Json where
  | null
  | bool (b : Bool)
  | num (n : Int)
  | str (s : String)
  | arr (elems : List Json)
  | obj (fields : List (String × Json))

/-- Field access `Value::get(key)`: first field with the given name of an
object, `none` on any other value. -/
def Json.get (j : Json) (key : String) : Option Json :=
  match j with
  | .obj fields => (fields.find? (fun f => f.1 == key)).map (fun f => f.2)
  | _ => none

/-- Conversion `Value::as_u64`: the numeric value when it is a non-negative
integer, `none` otherwise. -/
def Json.as_u64 : Json → Option Nat
  | .num n => if 0 ≤ n then some n.toNat else none
  | _ => none

/-- Double-quote as a one-character string. -/
def dQuote : String := String.mk [Char.ofNat 34]

/-- Rendering of a JSON value to text, modelling the `Display` instance of
`serde_json::Value` (string escaping is not modelled; no claim depends on the
rendering of strings with special characters). -/
def Json.render : Json → String
  | .null => "null"
  | .bool b => if b then "true" else "false"
  | .num n => toString n
  | .str s => dQuote ++ s ++ dQuote
  | .arr elems =>
    "[" ++ String.intercalate "," (elems.attach.map (fun e => e.1.render)) ++ "]"
  | .obj fields =>
    "\x7b" ++ String.intercalate ","
      ((fields.attach.map (fun f => dQuote ++ f.1.1 ++ dQuote ++ ":" ++ f.1.2.render))) ++ "\x7d"
decreasing_by
  · simp_wf
    have h := List.sizeOf_lt_of_mem e.2
    omega
  · simp_wf
    have h := List.sizeOf_lt_of_mem f.2
    obtain ⟨⟨a, b⟩, hf⟩ := f
    simp at h ⊢
    omega

/-- Association-list removal (`HashMap::remove` observed through lookups). -/
def mapRemove {κ α : Type} [BEq κ] (k : κ) (m : List (κ × α)) : List (κ × α) :=
  m.filter (fun e => !(e.1 == k))

/-- Association-list insertion; like `HashMap::insert` it replaces any entry
with the same key. -/
def mapInsert {κ α : Type} [BEq κ] (k : κ) (v : α) (m : List (κ × α)) : List (κ × α) :=
  (k, v) :: mapRemove k m

/-- Association-list lookup (`HashMap::get`). -/
def mapLookup {κ α : Type} [BEq κ] (k : κ) (m : List (κ × α)) : Option α :=
  (m.find? (fun e => e.1 == k)).map (fun e => e.2)

/-- Pending JSON-RPC request (`struct PendingRequest` in `process.rs`);
the monotonic `timestamp: Instant` field is real time and is not modelled. -/
structure PendingRequest where
  message_id : Nat
  method : String
deriving DecidableEq, Repr

/-- Outcome of `Child::try_wait` on the child handle. -/
inductive TryWaitResult where
  | exited (status : Int)
  | running
  | errWait (msg : String)
deriving DecidableEq, Repr

/-- Child process handle, reduced to the behaviour of `try_wait` that the
client observes. -/
structure ChildHandle where
  wait : TryWaitResult
deriving DecidableEq, Repr

/-- Outcome the OS delivers for one `writeln` + `flush` pair on the child's
stdin pipe. -/
inductive WriteResult where
  | ok
  | writeErr (msg : String)
  | flushErr (msg : String)
deriving DecidableEq, Repr

/-- Outcome the OS delivers for one `read_line` on the child's stdout pipe:
end of file (a zero-length read), a read error, or a line of text. The
`parsed` component records what `serde_json::from_str` yields on the trimmed
line (`none` for non-JSON text), modelling the external JSON parser. -/
inductive ReadEvent where
  | eof
  | readErr (msg : String)
  | line (raw : String) (parsed : Option Json)

/-- Wrap-around modulus of the `AtomicU32` message counter. -/
def U32MOD : Nat := 4294967296

/-- Session state (`struct MCPProcess` in `process.rs`). Pipes are modelled by
the outcome streams the OS would deliver; `stderr_receiver` is the drain
channel with its currently harvestable content; `written` instruments the
stdin pipe with the JSON values successfully delivered to the child. -/
structure MCPProcess where
  server_id : String
  process : Option ChildHandle
  stdin : Option (List WriteResult)
  stdout : Option (List ReadEvent)
  stderr_receiver : Option (Option String)
  message_counter : Nat
  pending_requests : List (Nat × PendingRequest)
  written : List Json

/-- Constructor `MCPProcess::new`. -/
def MCPProcess.new (server_id : String) : MCPProcess :=
  ⟨server_id, none, none, none, none, 0, [], []⟩

/-- Method `next_message_id`: `fetch_add(1, SeqCst)` on the `AtomicU32`
counter returns the old value and stores the incremented value, wrapping at
`2^32`. -/
def MCPProcess.next_message_id (p : MCPProcess) : Nat × MCPProcess :=
  (p.message_counter, { p with message_counter := (p.message_counter + 1) % U32MOD })

/-- Method `track_request`: record a pending request under its id. -/
def MCPProcess.track_request (p : MCPProcess) (message_id : Nat) (method : String) :
    MCPProcess :=
  { p with pending_requests :=
      mapInsert message_id ⟨message_id, method⟩ p.pending_requests }

/-- Method `complete_request`: remove and return the pending entry. -/
def MCPProcess.complete_request (p : MCPProcess) (message_id : Nat) :
    Option PendingRequest × MCPProcess :=
  (mapLookup message_id p.pending_requests,
    { p with pending_requests := mapRemove message_id p.pending_requests })

/-- Method `check_process_status`: `try_wait` result mapped to
running / exited / error, `Ok(false)` when there is no child. -/
def MCPProcess.check_process_status (p : MCPProcess) : Except String Bool :=
  match p.process with
  | some child =>
    match child.wait with
    | .exited _ => .ok false
    | .running => .ok true
    | .errWait e => .error e
  | none => .ok false

/-- Method `collect_stderr`: harvest whatever the drain has buffered; `none`
when nothing is buffered or the receiver was never created. The poll timing
of the Rust loop is not modelled. -/
def MCPProcess.collect_stderr (p : MCPProcess) (_timeout_ms : Nat) :
    Option String × MCPProcess :=
  match p.stderr_receiver with
  | none => (none, p)
  | some buffered => (buffered, { p with stderr_receiver := some none })

/-- Error `Connection/NO_STDIN` from `send_message_sync`. -/
def noStdinError : ProtocollieError :=
  ((ProtocollieError.new .Connection "NO_STDIN"
    "MCP process not started or stdin not available").with_details
    "Cannot send message to MCP server without stdin pipe").with_suggestions
    [ "Ensure the MCP server process is running",
      "Check that the server was started correctly",
      "Try reconnecting to the server" ]

/-- Error `Connection/WRITE_FAILED` from `send_message_sync`. -/
def writeFailedError (e : String) : ProtocollieError :=
  ((ProtocollieError.new .Connection "WRITE_FAILED"
    "Failed to write message to MCP process").with_details e).with_suggestions
    [ "Check if the MCP server process is still running",
      "Verify the process stdin pipe is not broken",
      "Try reconnecting to the server" ]

/-- Error `Connection/FLUSH_FAILED` from `send_message_sync`. -/
def flushFailedError (e : String) : ProtocollieError :=
  ((ProtocollieError.new .Connection "FLUSH_FAILED"
    "Failed to flush stdin buffer").with_details e).with_suggestions
    [ "Check if the MCP server process is still running",
      "Try reconnecting to the server" ]

/-- Method `send_message_sync`: fail with `NO_STDIN` when stdin is absent,
serialize the value (total on values the client builds, so
`JSON_SERIALIZE_FAILED` is unreachable and not modelled), then write the line
and flush, consuming the next write outcome of the stdin stream. A write
outcome beyond the listed prefix succeeds. -/
def MCPProcess.send_message_sync (p : MCPProcess) (message : Json) :
    Except ProtocollieError Unit × MCPProcess :=
  match p.stdin with
  | none => (.error noStdinError, p)
  | some ws =>
    match ws with
    | [] => (.ok (), { p with stdin := some [], written := p.written ++ [message] })
    | .ok :: rest =>
      (.ok (), { p with stdin := some rest, written := p.written ++ [message] })
    | .writeErr m :: rest =>
      (.error (writeFailedError m), { p with stdin := some rest })
    | .flushErr m :: rest =>
      (.error (flushFailedError m), { p with stdin := some rest })

/-- ASCII whitespace test for `str::trim` (the relevant whitespace in the
line-delimited protocol is ASCII). -/
def isWsChar (c : Char) : Bool :=
  c == Char.ofNat 32 || c == Char.ofNat 9 || c == Char.ofNat 10 || c == Char.ofNat 13

/-- Drop leading whitespace characters. -/
def dropLeadingWs : List Char → List Char
  | [] => []
  | c :: t => if isWsChar c then dropLeadingWs t else c :: t

/-- Whitespace trimming of both ends, modelling `str::trim`. -/
def strTrim (s : String) : String :=
  String.mk ((dropLeadingWs (dropLeadingWs s.data.reverse).reverse))

/-- Error `Connection/NO_STDOUT` from `read_response`. -/
def noStdoutError : ProtocollieError :=
  ((ProtocollieError.new .Connection "NO_STDOUT"
    "MCP process stdout not available").with_details
    "Cannot read response from MCP server without stdout pipe").with_suggestions
    [ "Ensure the MCP server process is running",
      "Check that the server was started correctly",
      "Try reconnecting to the server" ]

/-- Error `Connection/STDOUT_CLOSED` from `read_response`. -/
def stdoutClosedError : ProtocollieError :=
  ((ProtocollieError.new .Connection "STDOUT_CLOSED"
    "MCP process closed stdout unexpectedly").with_details
    "The server terminated the connection").with_suggestions
    [ "Check server logs for errors",
      "Verify server configuration is correct",
      "Try reconnecting to the server" ]

/-- Error `Connection/READ_FAILED` from `read_response`. -/
def readFailedError (e : String) : ProtocollieError :=
  ((ProtocollieError.new .Connection "READ_FAILED"
    "Failed to read from MCP process stdout").with_details e).with_suggestions
    [ "Check if the MCP server process is still running",
      "Verify the process stdout pipe is not broken",
      "Try reconnecting to the server" ]

/-- Error `Timeout/CONNECTION_TIMEOUT` from `read_response`, whose details
report the expected id and the number of lines consumed without a match. -/
def readTimeoutError (expected_id timeout_ms count : Nat) : ProtocollieError :=
  (ProtocollieError.connection_timeout "MCP server" timeout_ms).with_details
    ("Expected response with ID " ++ toString expected_id ++ " but received " ++
      toString count ++ " lines with no match")

/-- Reader loop of `read_response`. Each iteration consumes one stdout event;
exhaustion of the event list models the deadline expiring with no further
data. The accumulator counts the nonempty lines stored in `all_output`.
Returns the result, the remaining stdout events, and the final line count. -/
def readResponseLoop (expected_id timeout_ms : Nat) :
    List ReadEvent → Nat → Except ProtocollieError Json × List ReadEvent × Nat
  | [], count => (.error (readTimeoutError expected_id timeout_ms count), [], count)
  | .eof :: rest, count => (.error stdoutClosedError, rest, count)
  | .readErr m :: rest, count => (.error (readFailedError m), rest, count)
  | .line raw parsed :: rest, count =>
    if (strTrim raw).isEmpty then readResponseLoop expected_id timeout_ms rest count
    else
      match parsed with
      | some json =>
        match json.get "id" with
        | some response_id =>
          if response_id.as_u64 == some expected_id then (.ok json, rest, count + 1)
          else readResponseLoop expected_id timeout_ms rest (count + 1)
        | none => readResponseLoop expected_id timeout_ms rest (count + 1)
      | none => readResponseLoop expected_id timeout_ms rest (count + 1)

/-- Method `read_response`: fail with `NO_STDOUT` when stdout was never
captured, otherwise run the reader loop on the stdout events. -/
def MCPProcess.read_response (p : MCPProcess) (expected_id : Nat) (timeout_ms : Nat) :
    Except ProtocollieError Json × MCPProcess :=
  match p.stdout with
  | none => (.error noStdoutError, p)
  | some evs =>
    let r := readResponseLoop expected_id timeout_ms evs 0
    (r.1, { p with stdout := some r.2.1 })

/-- Outcome of the `node --version` probe. -/
inductive NodeProbe where
  | works (version : String)
  | exitsNonzero
  | failsToRun
deriving DecidableEq, Repr

/-- Error `Command/NODE_NOT_WORKING` from `check_nodejs_availability`. -/
def nodeNotWorkingError : ProtocollieError :=
  ((ProtocollieError.new .Command "NODE_NOT_WORKING"
    "Node.js is installed but not working properly").with_details
    "Node.js command returned non-zero exit status").with_suggestions
    [ "Try running " ++ sQuote ++ "node --version" ++ sQuote ++ " in your terminal",
      "Reinstall Node.js from https://nodejs.org/",
      "Restart Protocollie after fixing Node.js" ]

/-- Error `Command/NODE_NOT_FOUND` from `check_nodejs_availability`. -/
def nodeNotFoundError : ProtocollieError :=
  ((ProtocollieError.new .Command "NODE_NOT_FOUND"
    "Node.js is required but not found").with_details
    "Protocollie requires Node.js to run MCP servers").with_suggestions
    [ "Download from: https://nodejs.org/",
      "macOS: brew install node",
      "Ubuntu: sudo apt install nodejs npm",
      "Windows: winget install OpenJS.NodeJS",
      "After installing Node.js, restart Protocollie" ]

/-- Function `check_nodejs_availability`: probe `node --version`; the version
string when the probe ran and exited zero, `NODE_NOT_WORKING` when it ran but
exited nonzero, `NODE_NOT_FOUND` when it could not run at all. -/
def check_nodejs_availability (probe : NodeProbe) : Except ProtocollieError String :=
  match probe with
  | .works v => .ok v
  | .exitsNonzero => .error nodeNotWorkingError
  | .failsToRun => .error nodeNotFoundError

/-- Pipes and handle of a successfully spawned child: the `try_wait`
behaviour, the captured pipes with their OS outcome streams, and the stderr
drain content. -/
structure ChildSpec where
  handle : ChildHandle
  stdinPipe : Option (List WriteResult)
  stdoutPipe : Option (List ReadEvent)
  stderrPipe : Option (Option String)

/-- Environment of one `start` call: what the `node --version` probe would
report and what `Command::spawn` would produce (the OS error string on
failure, the child's handle and pipes on success). -/
structure StartEnv where
  nodeProbe : NodeProbe
  spawn : Except String ChildSpec

/-- Error `Command/NODE_START_FAILED` for a spawn failure of `node`/`npx`. -/
def nodeStartFailedError (command e : String) : ProtocollieError :=
  ((ProtocollieError.new .Command "NODE_START_FAILED"
    ("Failed to start Node.js MCP server " ++ sQuote ++ command ++ sQuote)).with_details
    e).with_suggestions
    [ "Ensure Node.js is installed and in your PATH",
      "Verify the MCP server script exists and is accessible",
      "Check you have permission to execute the script" ]

/-- Error `Command/PYTHON_START_FAILED` for a spawn failure of `python`. -/
def pythonStartFailedError (command e : String) : ProtocollieError :=
  ((ProtocollieError.new .Command "PYTHON_START_FAILED"
    ("Failed to start Python MCP server " ++ sQuote ++ command ++ sQuote)).with_details
    e).with_suggestions
    [ "Ensure Python is installed and in your PATH",
      "Install required Python packages",
      "Check you have permission to execute the script" ]

/-- Error `Command/COMMAND_START_FAILED` for a spawn failure of any other
command. -/
def commandStartFailedError (command e : String) : ProtocollieError :=
  ((ProtocollieError.new .Command "COMMAND_START_FAILED"
    ("Failed to start MCP server command " ++ sQuote ++ command ++ sQuote)).with_details
    e).with_suggestions
    [ "Ensure " ++ sQuote ++ command ++ sQuote ++ " is installed and in your PATH",
      "Check you have permission to execute the command",
      "Verify all required dependencies are installed" ]

/-- Translation of the OS spawn error inside `MCPProcess::start`: lowercase
the error string; *no such file* / *not found* becomes `CMD_NOT_FOUND`,
*permission denied* becomes `PERMISSION_DENIED`, and anything else becomes a
start-failure error picked by command kind, with the raw OS message as
details. -/
def spawnErrorToStructured (command e : String) : ProtocollieError :=
  let error_str := toLowerStr e
  if strContains error_str "no such file" || strContains error_str "not found" then
    ProtocollieError.command_not_found command
  else if strContains error_str "permission denied" then
    ProtocollieError.permission_denied ("command " ++ sQuote ++ command ++ sQuote)
  else if command == "node" || command == "npx" then
    nodeStartFailedError command e
  else if command == "python" || command == "python3" then
    pythonStartFailedError command e
  else
    commandStartFailedError command e

/-- Spawn phase of `MCPProcess::start`: on spawn failure translate the OS
error; on success capture the three pipes and the child handle. The `args`
are part of the spawned command line and only influence the outcome through
the environment. -/
def MCPProcess.startSpawn (p : MCPProcess) (command : String) (_args : List String)
    (env : StartEnv) : Except ProtocollieError Unit × MCPProcess :=
  match env.spawn with
  | .error e => (.error (spawnErrorToStructured command e), p)
  | .ok child =>
    (.ok (), { p with
        process := some child.handle,
        stdin := child.stdinPipe,
        stdout := child.stdoutPipe,
        stderr_receiver := child.stderrPipe })

/-- Method `MCPProcess::start`: for `node`/`npx` commands first probe Node.js
availability and fail before any spawn when the probe fails; then spawn. -/
def MCPProcess.start (p : MCPProcess) (command : String) (args : List String)
    (env : StartEnv) : Except ProtocollieError Unit × MCPProcess :=
  if command == "node" || command == "npx" then
    match check_nodejs_availability env.nodeProbe with
    | .error nodejs_error => (.error nodejs_error, p)
    | .ok _ => p.startSpawn command args env
  else p.startSpawn command args env

/-- Parameters of the `initialize` request. -/
def initializeParams : Json :=
  Json.obj
    [ ("protocolVersion", .str "2024-11-05"),
      ("capabilities", .obj []),
      ("clientInfo", Json.obj
        [ ("name", .str "protocollie"),
          ("version", .str "1.0.0") ]) ]

/-- JSON-RPC `initialize` request with the given id. -/
def initMessage (message_id : Nat) : Json :=
  Json.obj
    [ ("jsonrpc", .str "2.0"),
      ("id", .num (message_id : Int)),
      ("method", .str "initialize"),
      ("params", initializeParams) ]

/-- JSON-RPC `notifications/initialized` notification (no id). -/
def initializedNotification : Json :=
  Json.obj
    [ ("jsonrpc", .str "2.0"),
      ("method", .str "notifications/initialized") ]

/-- Method `send_initialize`: send the `initialize` request, wait up to
5000 ms for the correlated reply but treat any failure of that read as
non-fatal (only harvest stderr for the log), then send the
`notifications/initialized` notification. Only a failing write makes the
method fail. -/
def MCPProcess.send_initialize (p : MCPProcess) :
    Except ProtocollieError Unit × MCPProcess :=
  let r0 := p.next_message_id
  let message_id := r0.1
  let p1 := (r0.2).track_request message_id "initialize"
  match p1.send_message_sync (initMessage message_id) with
  | (.error e, p2) => (.error e, p2)
  | (.ok _, p2) =>
    let r1 := p2.read_response message_id 5000
    let p3 := match r1.1 with
      | .ok _ => r1.2
      | .error _ => ((r1.2).collect_stderr 1000).2
    match p3.send_message_sync initializedNotification with
    | (.error e, p4) => (.error e, p4)
    | (.ok _, p4) => (.ok (), p4)

/-- Method `stop`: kill and reap the child, drop the pipes; idempotent. -/
def MCPProcess.stop (p : MCPProcess) : MCPProcess :=
  { p with process := none, stdin := none, stdout := none }

/-- Event payload for connection status changes (`struct ConnectionEvent` in
`registry.rs`); timestamps are Unix epoch seconds passed in as `now`. -/
structure ConnectionEvent where
  server_id : String
  status : String
  reason : Option String
  timestamp : Nat
  command : Option String
  args : Option (List String)
deriving DecidableEq, Repr

/-- Connection status record (`struct ConnectionInfo` in `registry.rs`). -/
structure ConnectionInfo where
  server_id : String
  command : String
  args : List String
  status : String
  connected_at : Option Nat
deriving DecidableEq, Repr

/-- Registry state (`struct ConnectionRegistry`): the connection-info map and
the process map. Lock acquisition always succeeds in this sequential model
(lock poisoning is not modelled), and the event channel is modelled by
returning the list of events each operation emits. -/
structure RegistryState where
  connections : List (String × ConnectionInfo)
  processes : List (String × MCPProcess)

/-- Constructor `ConnectionRegistry::new`. -/
def RegistryState.new : RegistryState := ⟨[], []⟩

/-- Method `get_connection_statuses`: snapshot of all `ConnectionInfo`
values. -/
def RegistryState.get_connection_statuses (reg : RegistryState) : List ConnectionInfo :=
  reg.connections.map (fun e => e.2)

/-- Method `is_server_connected`: pure membership test on the
connection-info map. -/
def RegistryState.is_server_connected (reg : RegistryState) (server_id : String) : Bool :=
  (mapLookup server_id reg.connections).isSome

/-- Method `disconnect_server_silent`: remove and stop the process, remove
the connection info, emit no event. -/
def RegistryState.disconnect_server_silent (reg : RegistryState) (server_id : String) :
    Except ProtocollieError Unit × RegistryState × List ConnectionEvent :=
  (.ok (), ⟨mapRemove server_id reg.connections, mapRemove server_id reg.processes⟩, [])

/-- Event emitted by `disconnect_server`. -/
def userDisconnectEvent (server_id : String) (now : Nat) : ConnectionEvent :=
  ⟨server_id, "disconnected", some "User requested disconnection", now, none, none⟩

/-- Method `disconnect_server`: remove and stop the process (when present),
remove the connection info, then emit a `disconnected` event with reason
"User requested disconnection" unconditionally. -/
def RegistryState.disconnect_server (reg : RegistryState) (server_id : String) (now : Nat) :
    Except ProtocollieError Unit × RegistryState × List ConnectionEvent :=
  (.ok (),
    ⟨mapRemove server_id reg.connections, mapRemove server_id reg.processes⟩,
    [userDisconnectEvent server_id now])

/-- Event emitted by `connect_server` on success. -/
def connectedEvent (server_id command : String) (args : List String) (now : Nat) :
    ConnectionEvent :=
  ⟨server_id, "connected", none, now, some command, some args⟩

/-- Method `connect_server`: silently disconnect any existing session with
this id, create a fresh `MCPProcess`, start it, initialize it, store the
process and a `ConnectionInfo` with status `connected`, and emit a
`connected` event. On a start or initialize failure the error is returned
as-is and nothing is stored or emitted. -/
def RegistryState.connect_server (reg : RegistryState) (server_id command : String)
    (args : List String) (env : StartEnv) (now : Nat) :
    Except ProtocollieError Unit × RegistryState × List ConnectionEvent :=
  let silent := reg.disconnect_server_silent server_id
  let reg1 := silent.2.1
  let process := MCPProcess.new server_id
  match process.start command args env with
  | (.ok _, process1) =>
    match MCPProcess.send_initialize process1 with
    | (.error e, _) => (.error e, reg1, [])
    | (.ok _, process2) =>
      let connection_info : ConnectionInfo :=
        ⟨server_id, command, args, "connected", some now⟩
      (.ok (),
        ⟨mapInsert server_id connection_info reg1.connections,
          mapInsert server_id process2 reg1.processes⟩,
        [connectedEvent server_id command args now])
  | (.error e, _) => (.error e, reg1, [])

/-- Error `Connection/NO_PROCESS` from `list_tools`/`execute_tool`. -/
def noProcessError (server_id : String) : ProtocollieError :=
  (ProtocollieError.new .Connection "NO_PROCESS"
    ("No active MCP process found for server " ++ server_id)).with_suggestions
    [ "Ensure the server is connected",
      "Try connecting to the server first",
      "Check that the server ID is correct" ]

/-- Error `Connection/PROCESS_EXITED` from `list_tools`/`execute_tool`. -/
def processExitedError (server_id : String) : ProtocollieError :=
  (ProtocollieError.new .Connection "PROCESS_EXITED"
    ("MCP process for server " ++ server_id ++ " has exited")).with_suggestions
    [ "Check server logs for errors",
      "Verify server configuration is correct",
      "Try reconnecting to the server" ]

/-- Error `System/STATUS_CHECK_FAILED` from `list_tools`/`execute_tool`. -/
def statusCheckFailedError (e : String) : ProtocollieError :=
  ((ProtocollieError.new .System "STATUS_CHECK_FAILED"
    "Error checking MCP process status").with_details e).with_suggestions
    [ "Try reconnecting to the server",
      "Restart the application if the issue persists" ]

/-- Event emitted by `list_tools` when the child has exited. -/
def processExitedDuringListingEvent (server_id : String) (now : Nat) : ConnectionEvent :=
  ⟨server_id, "disconnected", some "Process exited during tool listing", now, none, none⟩

/-- JSON-RPC `tools/list` request with the given id. -/
def toolsListMessage (message_id : Nat) : Json :=
  Json.obj
    [ ("jsonrpc", .str "2.0"),
      ("id", .num (message_id : Int)),
      ("method", .str "tools/list"),
      ("params", .obj []) ]

/-- Method `list_tools`: look up the process; probe its status and fail with
`PROCESS_EXITED` (emitting a `disconnected` event with reason "Process exited
during tool listing") when the child has exited, or `STATUS_CHECK_FAILED` on
a probe error — in both cases the two registry maps are left untouched.
Otherwise send a `tools/list` request, await the correlated reply with a
5000 ms timeout, and return `response.result`, translating a `response.error`
into `PROTOCOL_ERROR`. -/
def RegistryState.list_tools (reg : RegistryState) (server_id : String) (now : Nat) :
    Except ProtocollieError Json × RegistryState × List ConnectionEvent :=
  match mapLookup server_id reg.processes with
  | none => (.error (noProcessError server_id), reg, [])
  | some process =>
    match process.check_process_status with
    | .ok false =>
      (.error (processExitedError server_id), reg,
        [processExitedDuringListingEvent server_id now])
    | .error e => (.error (statusCheckFailedError e), reg, [])
    | .ok true =>
      let r0 := process.next_message_id
      let message_id := r0.1
      let list_tools_message := toolsListMessage message_id
      match (r0.2).send_message_sync list_tools_message with
      | (.error e, process1) =>
        (.error e, ⟨reg.connections, mapInsert server_id process1 reg.processes⟩, [])
      | (.ok _, process1) =>
        match process1.read_response message_id 5000 with
        | (.ok response, process2) =>
          let reg1 : RegistryState :=
            ⟨reg.connections, mapInsert server_id process2 reg.processes⟩
          match response.get "result" with
          | some result => (.ok result, reg1, [])
          | none =>
            match response.get "error" with
            | some err =>
              (.error (ProtocollieError.protocol_error
                ("MCP server returned error: " ++ err.render)), reg1, [])
            | none =>
              (.error (ProtocollieError.protocol_error
                "Invalid JSON-RPC response: missing result and error"), reg1, [])
        | (.error e, process2) =>
          (.error e, ⟨reg.connections, mapInsert server_id process2 reg.processes⟩, [])

/-- Number of entries of an association list carrying the given key. -/
def countKey {k : Type} {a : Type} [BEq k] (key : k) (m : List (k × a)) : Nat :=
  (m.filter (fun e => e.1 == key)).length

/-- Concrete child used by the C8 witness: a running child whose stdout
holds one correlated `initialize` reply. -/
def c8Child : ChildSpec :=
  ⟨⟨.running⟩, some [],
    some [ReadEvent.line "r"
      (some (Json.obj [("jsonrpc", Json.str "2.0"), ("id", Json.num 0),
        ("result", Json.obj [])]))],
    some none⟩

/-- Concrete start environment used by the C8 witness. -/
def c8Env : StartEnv := ⟨NodeProbe.works "v20.0.0", .ok c8Child⟩

/-- Concrete registry holding a previous session for id "s". -/
def c8RegPrev : RegistryState :=
  ⟨[("s", ⟨"s", "cmdA", [], "connected", some 1⟩)], [("s", MCPProcess.new "s")]⟩

/-- Session state after starting the C8 witness child. -/
def c8P1 : MCPProcess := ((MCPProcess.new "s").start "cmdB" [] c8Env).2

/-- Session state after initializing the C8 witness child. -/
def c8P2 : MCPProcess := ( MCPProcess.send_initialize c8P1).2

/-- Concrete registry for the C1 scenario: one connected entry for id "s"
whose child process has exited. -/
def c1Reg : RegistryState :=
  ⟨[("s", ⟨"s", "cmdA", [], "connected", some 1⟩)],
    [("s", { MCPProcess.new "s" with process := some ⟨.exited 1⟩ })]⟩

/-- Concrete child used by the C2 scenario: spawn succeeds, the first stdin
write fails with a broken pipe, and the stderr drain holds diagnostics. -/
def c2Child : ChildSpec :=
  ⟨⟨.running⟩, some [WriteResult.writeErr "Broken pipe (os error 32)"], some [],
    some (some "fatal: cannot load config")⟩

/-- Concrete start environment used by the C2 scenario. -/
def c2Env : StartEnv := ⟨NodeProbe.works "v20.0.0", .ok c2Child⟩

/-- Ids returned by n successive `next_message_id` calls. -/
def MCPProcess.issueIds : MCPProcess → Nat → List Nat
  | _, 0 => []
  | p, n+1 =>
    let r := p.next_message_id
    r.1 :: r.2.issueIds n

/-- Session state after k `next_message_id` calls. -/
def MCPProcess.afterCalls : MCPProcess → Nat → MCPProcess
  | p, 0 => p
  | p, k+1 => ((p.afterCalls k).next_message_id).2

/-- Id returned by the (k+1)-st `next_message_id` call of a session. -/
def MCPProcess.idAt (p : MCPProcess) (k : Nat) : Nat :=
  ((p.afterCalls k).next_message_id).1

/-- Concrete session used by the C5 witness: every stdin write succeeds, but
the very first stdout read hits end-of-file, so the initialize reply read
fails. -/
def c5Proc : MCPProcess :=
  { MCPProcess.new "s" with stdin := some [], stdout := some [ReadEvent.eof] }

/-- The correlation test of `read_response`: a parsed line matches when it is
JSON carrying an `id` whose u64 value equals the expected id. -/
def jsonIdMatches (parsed : Option Json) (expected_id : Nat) : Bool :=
  match parsed with
  | some j =>
    match j.get "id" with
    | some response_id => response_id.as_u64 == some expected_id
    | none => false
  | none => false

/-- Concrete correlated reply used by the C4 witness. -/
def c4Match : Json :=
  Json.obj [("jsonrpc", Json.str "2.0"), ("id", Json.num 7), ("result", Json.obj [])]

/-- Concrete stdout stream for the C4 witness: an empty line, an id-less
notification, a reply with a different id, then the correlated reply. -/
def c4Events : List ReadEvent :=
  [ ReadEvent.line "  " none,
    ReadEvent.line "notif" (some (Json.obj [("method", Json.str "note")])),
    ReadEvent.line "other" (some (Json.obj [("id", Json.num 3)])),
    ReadEvent.line "reply" (some c4Match) ]

/-- Concrete session for the C4 witness. -/
def c4Proc : MCPProcess := { MCPProcess.new "s" with stdout := some c4Events }

/-!
## Theorems
-/

/-- Category and code of `command_not_found`. -/
@[simp] theorem command_not_found_cat_code (c : String) :
    ((ProtocollieError.command_not_found c).category,
      (ProtocollieError.command_not_found c).code) = (.Command, "CMD_NOT_FOUND") := rfl

/-- Category and code of `permission_denied`. -/
@[simp] theorem permission_denied_cat_code (r : String) :
    ((ProtocollieError.permission_denied r).category,
      (ProtocollieError.permission_denied r).code) = (.Permission, "PERMISSION_DENIED") := rfl

/-- Category and code of `connection_timeout`. -/
@[simp] theorem connection_timeout_cat_code (t : String) (ms : Nat) :
    ((ProtocollieError.connection_timeout t ms).category,
      (ProtocollieError.connection_timeout t ms).code) = (.Timeout, "CONNECTION_TIMEOUT") := rfl

/-- Category and code of `protocol_error`. -/
@[simp] theorem protocol_error_cat_code (d : String) :
    ((ProtocollieError.protocol_error d).category,
      (ProtocollieError.protocol_error d).code) = (.Protocol, "PROTOCOL_ERROR") := rfl

/-- Category and code of `database_error`. -/
@[simp] theorem database_error_cat_code (o d : String) :
    ((ProtocollieError.database_error o d).category,
      (ProtocollieError.database_error o d).code) = (.Database, "DATABASE_ERROR") := rfl

/-- Category and code of `configuration_error`. -/
@[simp] theorem configuration_error_cat_code (f d : String) :
    ((ProtocollieError.configuration_error f d).category,
      (ProtocollieError.configuration_error f d).code) = (.Configuration, "CONFIG_ERROR") := rfl

/-- Category and code of `system_error`. -/
@[simp] theorem system_error_cat_code (d : String) :
    ((ProtocollieError.system_error d).category,
      (ProtocollieError.system_error d).code) = (.System, "SYSTEM_ERROR") := rfl

/-- C3: for every input string, `analyze_error` lowercases it and assigns the
category and code of the first matching rule in the fixed order
command-not-found, permission-denied, timeout, protocol, database,
configuration, with `SYSTEM_ERROR` as the default; the first match wins. -/
theorem analyze_error_first_match (s : String) :
    ((analyze_error s).category, (analyze_error s).code) = classifySpec s := by
  unfold analyze_error classifySpec
  simp only [classifierRules, List.find?, List.any_cons, List.any_nil,
    Bool.or_false, Bool.or_assoc]
  by_cases h1 : strContains (toLowerStr s) "no such file or directory" = true
  · simp [h1]
  · by_cases h2 : strContains (toLowerStr s) "command not found" = true
    · simp [h1, h2]
    · by_cases h3 : strContains (toLowerStr s) "permission denied" = true
      · simp [h1, h2, h3]
      · by_cases h4 : strContains (toLowerStr s) "timeout" = true
        · simp [h1, h2, h3, h4]
        · by_cases h5 : strContains (toLowerStr s) "invalid json" = true
          · simp [h1, h2, h3, h4, h5]
          · by_cases h6 : strContains (toLowerStr s) "protocol" = true
            · simp [h1, h2, h3, h4, h5, h6]
            · by_cases h7 : strContains (toLowerStr s) "json-rpc" = true
              · simp [h1, h2, h3, h4, h5, h6, h7]
              · by_cases h8 : strContains (toLowerStr s) "database" = true
                · simp [h1, h2, h3, h4, h5, h6, h7, h8]
                · by_cases h9 : strContains (toLowerStr s) "sqlite" = true
                  · simp [h1, h2, h3, h4, h5, h6, h7, h8, h9]
                  · by_cases h10 : strContains (toLowerStr s) "config" = true
                    · simp [h1, h2, h3, h4, h5, h6, h7, h8, h9, h10]
                    · by_cases h11 : strContains (toLowerStr s) "missing" = true
                      · simp [h1, h2, h3, h4, h5, h6, h7, h8, h9, h10, h11]
                      · by_cases h12 : strContains (toLowerStr s) "invalid" = true
                        · simp [h1, h2, h3, h4, h5, h6, h7, h8, h9, h10, h11, h12]
                        · simp [h1, h2, h3, h4, h5, h6, h7, h8, h9, h10, h11, h12]

/-- Looking up a key right after removing it yields nothing. -/
theorem mapLookup_mapRemove_self {k : Type} {a : Type} [BEq k] (key : k)
    (m : List (k × a)) : mapLookup key (mapRemove key m) = none := by
  induction m with
  | nil => rfl
  | cons e t ih =>
    cases h : (e.1 == key) with
    | true => simpa [mapRemove, List.filter, h] using ih
    | false => simp [mapRemove, mapLookup, List.filter, List.find?, h] at ih ⊢

/-- Looking up a key right after inserting it yields the inserted value. -/
theorem mapLookup_mapInsert_self {k : Type} {a : Type} [BEq k] [LawfulBEq k]
    (key : k) (v : a) (m : List (k × a)) :
    mapLookup key (mapInsert key v m) = some v := by
  simp [mapInsert, mapLookup, List.find?]

/-- Removal leaves no entry with the removed key. -/
theorem countKey_mapRemove_self {k : Type} {a : Type} [BEq k] (key : k)
    (m : List (k × a)) : countKey key (mapRemove key m) = 0 := by
  induction m with
  | nil => rfl
  | cons e t ih =>
    cases h : (e.1 == key) with
    | true => simp [mapRemove, countKey, List.filter, h] at ih ⊢
    | false => simp [mapRemove, countKey, List.filter, h] at ih ⊢

/-- Insertion leaves exactly one entry with the inserted key. -/
theorem countKey_mapInsert_self {k : Type} {a : Type} [BEq k] [LawfulBEq k]
    (key : k) (v : a) (m : List (k × a)) :
    countKey key (mapInsert key v m) = 1 := by
  have h := countKey_mapRemove_self key m
  simp [mapInsert, countKey, List.filter] at *
  exact h


/-- C10: for every registry state and server id — including ids with no
session and no connection info — `disconnect_server` returns Ok and emits
exactly one `disconnected` event with reason "User requested disconnection";
repeating the call emits the event again. -/
theorem disconnect_server_always_emits (reg : RegistryState) (server_id : String)
    (now now2 : Nat) :
    (reg.disconnect_server server_id now).1 = .ok () ∧
    (reg.disconnect_server server_id now).2.2 = [userDisconnectEvent server_id now] ∧
    (((reg.disconnect_server server_id now).2.1.disconnect_server server_id now2).1 =
      .ok ()) ∧
    (((reg.disconnect_server server_id now).2.1.disconnect_server server_id now2).2.2 =
      [userDisconnectEvent server_id now2]) :=
  ⟨rfl, rfl, rfl, rfl⟩

/-- Every failing `connect_server` call leaves exactly the state of the
initial silent disconnect and emits nothing. -/
theorem connect_server_error_shape (reg : RegistryState) (server_id command : String)
    (args : List String) (env : StartEnv) (now : Nat) (e : ProtocollieError)
    (h : (reg.connect_server server_id command args env now).1 = .error e) :
    (reg.connect_server server_id command args env now).2 =
      (⟨mapRemove server_id reg.connections, mapRemove server_id reg.processes⟩, []) := by
  unfold RegistryState.connect_server RegistryState.disconnect_server_silent at h ⊢
  rcases hs : (MCPProcess.new server_id).start command args env with ⟨r, ps⟩
  cases r with
  | error e0 => simp [hs]
  | ok _ =>
    rcases hi : MCPProcess.send_initialize ps with ⟨ri, pi⟩
    cases ri with
    | error e1 => simp [hs, hi]
    | ok _ => simp [hs, hi] at h

/-- C7: for every `connect_server` call that returns an error, the registry
is left with no session and no `ConnectionInfo` entry for the server id, the
call emits no event (in particular no `connected` event), and
`is_server_connected` reports false. -/
theorem connect_server_failure_clean (reg : RegistryState) (server_id command : String)
    (args : List String) (env : StartEnv) (now : Nat) (e : ProtocollieError)
    (h : (reg.connect_server server_id command args env now).1 = .error e) :
    mapLookup server_id (reg.connect_server server_id command args env now).2.1.connections
      = none ∧
    mapLookup server_id (reg.connect_server server_id command args env now).2.1.processes
      = none ∧
    (reg.connect_server server_id command args env now).2.2 = [] ∧
    (reg.connect_server server_id command args env now).2.1.is_server_connected server_id
      = false := by
  have hshape := connect_server_error_shape reg server_id command args env now e h
  rw [hshape]
  refine ⟨mapLookup_mapRemove_self _ _, mapLookup_mapRemove_self _ _, rfl, ?_⟩
  simp [RegistryState.is_server_connected, mapLookup_mapRemove_self]

/-- Witness for C7: connecting with a command whose spawn fails with an OS
"No such file or directory" error fails with `CMD_NOT_FOUND` and retains no
state and emits nothing. -/
theorem connect_server_failure_clean_witness :
    mapLookup "s" (RegistryState.new.connect_server "s" "bad-cmd" [] 
        ⟨NodeProbe.works "v20.0.0", .error "No such file or directory (os error 2)"⟩
        7).2.1.connections = none ∧
    mapLookup "s" (RegistryState.new.connect_server "s" "bad-cmd" []
        ⟨NodeProbe.works "v20.0.0", .error "No such file or directory (os error 2)"⟩
        7).2.1.processes = none ∧
    (RegistryState.new.connect_server "s" "bad-cmd" []
        ⟨NodeProbe.works "v20.0.0", .error "No such file or directory (os error 2)"⟩
        7).2.2 = [] ∧
    (RegistryState.new.connect_server "s" "bad-cmd" []
        ⟨NodeProbe.works "v20.0.0", .error "No such file or directory (os error 2)"⟩
        7).2.1.is_server_connected "s" = false :=
  connect_server_failure_clean RegistryState.new "s" "bad-cmd" []
    ⟨NodeProbe.works "v20.0.0", .error "No such file or directory (os error 2)"⟩ 7
    (ProtocollieError.command_not_found "bad-cmd") rfl

/-- C8: when a second `connect_server` for an id that already holds a session
succeeds (its start and initialize succeed), the registry afterwards holds
exactly one session for that id — the newly built one — and a
`ConnectionInfo` for the new command with status connected, and the only
event the call emits is the `connected` event for the new command; the
superseded session is removed silently. -/
theorem connect_server_replaces_session (reg : RegistryState) (server_id b : String)
    (args : List String) (env : StartEnv) (now : Nat) (pA p1 p2 : MCPProcess)
    (_hA : mapLookup server_id reg.processes = some pA)
    (h1 : (MCPProcess.new server_id).start b args env = (.ok (), p1))
    (h2 : MCPProcess.send_initialize p1 = (.ok (), p2)) :
    (reg.connect_server server_id b args env now).1 = .ok () ∧
    mapLookup server_id (reg.connect_server server_id b args env now).2.1.processes
      = some p2 ∧
    countKey server_id (reg.connect_server server_id b args env now).2.1.processes = 1 ∧
    mapLookup server_id (reg.connect_server server_id b args env now).2.1.connections
      = some ⟨server_id, b, args, "connected", some now⟩ ∧
    (reg.connect_server server_id b args env now).2.2 =
      [connectedEvent server_id b args now] := by
  unfold RegistryState.connect_server RegistryState.disconnect_server_silent
  simp [h1, h2, mapLookup_mapInsert_self, countKey_mapInsert_self]

/-- Witness for C8: a second connect for id "s" with command "cmdB" on a
registry already holding a session supersedes it with a single new session
and emits only the `connected` event for "cmdB". -/
theorem connect_server_replaces_session_witness :
    (c8RegPrev.connect_server "s" "cmdB" [] c8Env 9).1 = .ok () ∧
    mapLookup "s" (c8RegPrev.connect_server "s" "cmdB" [] c8Env 9).2.1.processes
      = some c8P2 ∧
    countKey "s" (c8RegPrev.connect_server "s" "cmdB" [] c8Env 9).2.1.processes = 1 ∧
    mapLookup "s" (c8RegPrev.connect_server "s" "cmdB" [] c8Env 9).2.1.connections
      = some ⟨"s", "cmdB", [], "connected", some 9⟩ ∧
    (c8RegPrev.connect_server "s" "cmdB" [] c8Env 9).2.2 =
      [connectedEvent "s" "cmdB" [] 9] :=
  connect_server_replaces_session c8RegPrev "s" "cmdB" [] c8Env 9
    (MCPProcess.new "s") c8P1 c8P2 rfl rfl (by rfl)

/-- C1 (amended): when the registered child process for a server id has
exited, `list_tools` fails with `Connection/PROCESS_EXITED` and emits a
`disconnected` event with reason "Process exited during tool listing", but it
leaves both registry maps untouched, so a subsequent `is_server_connected`
still returns true whenever a `ConnectionInfo` entry is present. -/
theorem list_tools_process_exited (reg : RegistryState) (server_id : String) (now : Nat)
    (proc : MCPProcess) (info : ConnectionInfo)
    (hp : mapLookup server_id reg.processes = some proc)
    (hdead : proc.check_process_status = .ok false)
    (hc : mapLookup server_id reg.connections = some info) :
    (reg.list_tools server_id now).1 = .error (processExitedError server_id) ∧
    (reg.list_tools server_id now).2.2 = [processExitedDuringListingEvent server_id now] ∧
    (reg.list_tools server_id now).2.1 = reg ∧
    (reg.list_tools server_id now).2.1.is_server_connected server_id = true := by
  unfold RegistryState.list_tools
  simp [hp, hdead, RegistryState.is_server_connected, hc]

/-- Witness for C1 (amended): the concrete registry `c1Reg` exhibits the
error, the event, and the untouched connection map. -/
theorem list_tools_process_exited_witness :
    (c1Reg.list_tools "s" 5).1 = .error (processExitedError "s") ∧
    (c1Reg.list_tools "s" 5).2.2 = [processExitedDuringListingEvent "s" 5] ∧
    (c1Reg.list_tools "s" 5).2.1 = c1Reg ∧
    (c1Reg.list_tools "s" 5).2.1.is_server_connected "s" = true :=
  list_tools_process_exited c1Reg "s" 5
    ({ MCPProcess.new "s" with process := some ⟨.exited 1⟩ })
    ⟨"s", "cmdA", [], "connected", some 1⟩ rfl rfl rfl

/-- Counterexample for C1 as stated: on `c1Reg` the `list_tools` call fails
with `PROCESS_EXITED` and emits the `disconnected` event, yet the subsequent
`is_server_connected` call returns true, not false — the `ConnectionInfo`
entry is never removed. -/
theorem list_tools_process_exited_counterexample :
    (c1Reg.list_tools "s" 5).1 = .error (processExitedError "s") ∧
    (c1Reg.list_tools "s" 5).2.2 = [processExitedDuringListingEvent "s" 5] ∧
    (c1Reg.list_tools "s" 5).2.1.is_server_connected "s" = true ∧
    ((c1Reg.list_tools "s" 5).2.1.is_server_connected "s") ≠ false :=
  ⟨rfl, rfl, rfl, by decide⟩

/-- C2 (amended): `connect_server` returns a failing start or initialize
error exactly as the session produced it — no stderr is harvested and
nothing is appended to the error's details (the stderr enrichment exists
only in the legacy `start_mcp_process` path, which the registry does not
call). -/
theorem connect_server_error_passthrough (reg : RegistryState)
    (server_id command : String) (args : List String) (env : StartEnv) (now : Nat) :
    (∀ e p1, (MCPProcess.new server_id).start command args env = (.error e, p1) →
      (reg.connect_server server_id command args env now).1 = .error e) ∧
    (∀ p1 e p2, (MCPProcess.new server_id).start command args env = (.ok (), p1) →
      MCPProcess.send_initialize p1 = (.error e, p2) →
      (reg.connect_server server_id command args env now).1 = .error e) := by
  constructor
  · intro e p1 h
    unfold RegistryState.connect_server
    simp [h]
  · intro p1 e p2 h h2
    unfold RegistryState.connect_server
    simp [h, h2]

/-- Witness for C2 (amended): with `c2Env` the spawn succeeds, the
initialize write fails with a broken pipe, and `connect_server` returns that
error unchanged. -/
theorem connect_server_error_passthrough_witness :
    (RegistryState.new.connect_server "s" "srv" [] c2Env 3).1 =
      .error (writeFailedError "Broken pipe (os error 32)") :=
  (connect_server_error_passthrough RegistryState.new "s" "srv" [] c2Env 3).2
    (((MCPProcess.new "s").start "srv" [] c2Env).2)
    (writeFailedError "Broken pipe (os error 32)")
    ( MCPProcess.send_initialize (((MCPProcess.new "s").start "srv" [] c2Env).2)).2
    rfl rfl

/-- Counterexample for C2 as stated: the child was spawned and its stderr
drain holds "fatal: cannot load config", yet the error `connect_server`
returns carries only the raw write error as details, with the harvested
stderr nowhere in it. -/
theorem connect_server_no_stderr_counterexample :
    (RegistryState.new.connect_server "s" "srv" [] c2Env 3).1 =
      .error (writeFailedError "Broken pipe (os error 32)") ∧
    (writeFailedError "Broken pipe (os error 32)").details =
      some "Broken pipe (os error 32)" ∧
    c2Child.stderrPipe = some (some "fatal: cannot load config") ∧
    strContains ((writeFailedError "Broken pipe (os error 32)").details.getD "")
      "fatal: cannot load config" = false :=
  ⟨rfl, rfl, rfl, by decide⟩

/-- Unfolding of `idAt`: the id returned after k prior calls is the counter
value reached after those calls. -/
theorem idAt_eq_counter (p : MCPProcess) (k : Nat) :
    p.idAt k = (p.afterCalls k).message_counter := rfl

/-- Counter value after k calls on a fresh session: k reduced modulo 2^32. -/
theorem afterCalls_counter_new (sid : String) (k : Nat) :
    ((MCPProcess.new sid).afterCalls k).message_counter = k % U32MOD := by
  induction k with
  | zero => simp [MCPProcess.afterCalls, MCPProcess.new]
  | succ k ih =>
    show ((((MCPProcess.new sid).afterCalls k).next_message_id).2).message_counter
      = (k + 1) % U32MOD
    simp only [MCPProcess.next_message_id, ih, U32MOD]
    omega

/-- Ids issued from a counter value c below the modulus: the arithmetic
progression c, c+1, ... reduced modulo 2^32. -/
theorem issueIds_from (n : Nat) : ∀ (c : Nat), c < U32MOD → ∀ (p : MCPProcess),
    p.message_counter = c →
    p.issueIds n = (List.range n).map (fun k => (c + k) % U32MOD) := by
  induction n with
  | zero => intro c _ p _; rfl
  | succ n ih =>
    intro c hc p hp
    have hlt : (c + 1) % U32MOD < U32MOD := Nat.mod_lt _ (by simp [U32MOD])
    have hstep := ih ((c + 1) % U32MOD) hlt (p.next_message_id).2
      (by simp [MCPProcess.next_message_id, hp])
    show (p.next_message_id).1 :: ((p.next_message_id).2).issueIds n = _
    rw [hstep, List.range_succ_eq_map]
    simp only [MCPProcess.next_message_id, hp, List.map_cons, List.map_map]
    congr 1
    · simp only [U32MOD] at *
      omega
    · apply List.map_congr_left
      intro k _
      simp only [Function.comp, U32MOD] at *
      omega

/-- C9 (amended): for every n up to 2^32, n successive `next_message_id`
calls on a fresh session return exactly the ids 0, 1, ..., n-1 — strictly
increasing with no id issued twice. Beyond 2^32 calls the u32 counter wraps
(see the counterexample). -/
theorem next_message_id_sequential (sid : String) (n : Nat) (h : n ≤ U32MOD) :
    (MCPProcess.new sid).issueIds n = List.range n ∧
    ((MCPProcess.new sid).issueIds n).Pairwise (· < ·) ∧
    ((MCPProcess.new sid).issueIds n).Nodup := by
  have he := issueIds_from n 0 (by simp [U32MOD]) (MCPProcess.new sid) rfl
  have hr : (List.range n).map (fun k => (0 + k) % U32MOD) = List.range n := by
    have hmap : (List.range n).map (fun k => (0 + k) % U32MOD)
        = (List.range n).map id := by
      apply List.map_congr_left
      intro k hk
      have hkn : k < n := List.mem_range.mp hk
      have hkm : k < U32MOD := lt_of_lt_of_le hkn h
      simp [Nat.mod_eq_of_lt hkm]
    simpa using hmap
  rw [he, hr]
  exact ⟨rfl, List.pairwise_lt_range n, List.nodup_range n⟩

/-- Witness for C9 (amended): five calls on a fresh session return
[0, 1, 2, 3, 4]. -/
theorem next_message_id_sequential_witness :
    (MCPProcess.new "s").issueIds 5 = List.range 5 ∧
    ((MCPProcess.new "s").issueIds 5).Pairwise (· < ·) ∧
    ((MCPProcess.new "s").issueIds 5).Nodup :=
  next_message_id_sequential "s" 5 (by simp only [U32MOD]; omega)

/-- Counterexample for C9 as stated: the id returned by the very first call
is returned again by call number 2^32 + 1 — the wrapping u32 counter does
reuse ids within one session's lifetime. -/
theorem next_message_id_wraps_counterexample :
    (MCPProcess.new "s").idAt U32MOD = (MCPProcess.new "s").idAt 0 ∧
    (MCPProcess.new "s").idAt 0 = 0 ∧ 0 < U32MOD := by
  refine ⟨?_, ?_, by simp only [U32MOD]; omega⟩
  · rw [idAt_eq_counter, idAt_eq_counter, afterCalls_counter_new, afterCalls_counter_new]
    simp [U32MOD]
  · rw [idAt_eq_counter, afterCalls_counter_new]
    exact Nat.zero_mod _

/-- Shape of a `send_message_sync` call when stdin is absent. -/
theorem send_message_sync_no_stdin (p : MCPProcess) (m : Json) (h : p.stdin = none) :
    p.send_message_sync m = (.error noStdinError, p) := by
  unfold MCPProcess.send_message_sync
  rw [h]

/-- Shape of a successful `send_message_sync` call: the write outcome stream
advances and the message is appended to the delivered trace. -/
theorem send_message_sync_ok (p : MCPProcess) (ws : List WriteResult) (m : Json)
    (h : p.stdin = some ws) (hw : ws.headD WriteResult.ok = WriteResult.ok) :
    p.send_message_sync m =
      (.ok (), { p with stdin := some ws.tail, written := p.written ++ [m] }) := by
  unfold MCPProcess.send_message_sync
  rw [h]
  cases ws with
  | nil => rfl
  | cons w rest =>
    cases w with
    | ok => rfl
    | writeErr e => simp [List.headD] at hw
    | flushErr e => simp [List.headD] at hw

/-- Shape of a failing `send_message_sync` call: some error is returned, the
outcome stream advances, and nothing is appended to the delivered trace. -/
theorem send_message_sync_err (p : MCPProcess) (ws : List WriteResult) (m : Json)
    (h : p.stdin = some ws) (hw : ws.headD WriteResult.ok ≠ WriteResult.ok) :
    ∃ e, p.send_message_sync m = (.error e, { p with stdin := some ws.tail }) := by
  unfold MCPProcess.send_message_sync
  rw [h]
  cases ws with
  | nil => simp [List.headD] at hw
  | cons w rest =>
    cases w with
    | ok => simp [List.headD] at hw
    | writeErr e => exact ⟨writeFailedError e, rfl⟩
    | flushErr e => exact ⟨flushFailedError e, rfl⟩

/-- `read_response` touches only the stdout stream of the session state. -/
theorem read_response_fields (p : MCPProcess) (i t : Nat) :
    ((p.read_response i t).2).stdin = p.stdin ∧
    ((p.read_response i t).2).written = p.written ∧
    ((p.read_response i t).2).stderr_receiver = p.stderr_receiver := by
  unfold MCPProcess.read_response
  cases h : p.stdout <;> simp

/-- `collect_stderr` touches only the stderr channel of the session state. -/
theorem collect_stderr_fields (p : MCPProcess) (t : Nat) :
    ((p.collect_stderr t).2).stdin = p.stdin ∧
    ((p.collect_stderr t).2).written = p.written := by
  unfold MCPProcess.collect_stderr
  cases h : p.stderr_receiver <;> simp

/-- Projection: `read_response` leaves stdin unchanged. -/
theorem read_response_stdin (p : MCPProcess) (i t : Nat) :
    ((p.read_response i t).2).stdin = p.stdin := (read_response_fields p i t).1

/-- Projection: `read_response` leaves the delivered trace unchanged. -/
theorem read_response_written (p : MCPProcess) (i t : Nat) :
    ((p.read_response i t).2).written = p.written := (read_response_fields p i t).2.1

/-- Projection: `collect_stderr` leaves stdin unchanged. -/
theorem collect_stderr_stdin (p : MCPProcess) (t : Nat) :
    ((p.collect_stderr t).2).stdin = p.stdin := (collect_stderr_fields p t).1

/-- Projection: `collect_stderr` leaves the delivered trace unchanged. -/
theorem collect_stderr_written (p : MCPProcess) (t : Nat) :
    ((p.collect_stderr t).2).written = p.written := (collect_stderr_fields p t).2

/-- C5: `send_initialize` fails exactly when one of its two writes fails; a
timeout or failure of the correlated read of the initialize reply never makes
it fail, and when both writes succeed the `notifications/initialized`
notification is still delivered after the read, whatever the read produced. -/
theorem send_initialize_write_failures_only (p : MCPProcess) :
    (p.stdin = none → ( MCPProcess.send_initialize p).1 = .error noStdinError) ∧
    (∀ ws, p.stdin = some ws →
      (( MCPProcess.send_initialize p).1 = .ok () ↔
        (ws.headD WriteResult.ok = WriteResult.ok ∧
          ws.tail.headD WriteResult.ok = WriteResult.ok))) ∧
    (∀ ws, p.stdin = some ws → ws.headD WriteResult.ok = WriteResult.ok →
      ws.tail.headD WriteResult.ok = WriteResult.ok →
      (( MCPProcess.send_initialize p).2).written =
        p.written ++ [initMessage p.message_counter, initializedNotification]) := by
  refine ⟨?_, ?_, ?_⟩
  · intro h
    simp [ MCPProcess.send_initialize, MCPProcess.next_message_id,
      MCPProcess.track_request, MCPProcess.send_message_sync, h]
  · intro ws hws
    cases hstdout : p.stdout with
    | none =>
      cases ws with
      | nil =>
        simp [ MCPProcess.send_initialize, MCPProcess.next_message_id,
          MCPProcess.track_request, MCPProcess.send_message_sync,
          MCPProcess.read_response, collect_stderr_stdin, collect_stderr_written,
          hws, hstdout]
      | cons w1 ws1 =>
        cases w1 with
        | ok =>
          cases ws1 with
          | nil =>
            simp [ MCPProcess.send_initialize, MCPProcess.next_message_id,
              MCPProcess.track_request, MCPProcess.send_message_sync,
              MCPProcess.read_response, collect_stderr_stdin, collect_stderr_written,
              hws, hstdout]
          | cons w2 ws2 =>
            cases w2 <;>
              simp [ MCPProcess.send_initialize, MCPProcess.next_message_id,
                MCPProcess.track_request, MCPProcess.send_message_sync,
                MCPProcess.read_response, collect_stderr_stdin, collect_stderr_written,
                hws, hstdout]
        | writeErr m =>
          simp [ MCPProcess.send_initialize, MCPProcess.next_message_id,
            MCPProcess.track_request, MCPProcess.send_message_sync,
            MCPProcess.read_response, collect_stderr_stdin, collect_stderr_written,
            hws, hstdout]
        | flushErr m =>
          simp [ MCPProcess.send_initialize, MCPProcess.next_message_id,
            MCPProcess.track_request, MCPProcess.send_message_sync,
            MCPProcess.read_response, collect_stderr_stdin, collect_stderr_written,
            hws, hstdout]
    | some evs =>
      rcases hl : readResponseLoop p.message_counter 5000 evs 0 with ⟨r, rest, cnt⟩
      cases r with
      | ok v =>
        cases ws with
        | nil =>
          simp [ MCPProcess.send_initialize, MCPProcess.next_message_id,
            MCPProcess.track_request, MCPProcess.send_message_sync,
            MCPProcess.read_response, collect_stderr_stdin, collect_stderr_written,
            hws, hstdout, hl]
        | cons w1 ws1 =>
          cases w1 with
          | ok =>
            cases ws1 with
            | nil =>
              simp [ MCPProcess.send_initialize, MCPProcess.next_message_id,
                MCPProcess.track_request, MCPProcess.send_message_sync,
                MCPProcess.read_response, collect_stderr_stdin, collect_stderr_written,
                hws, hstdout, hl]
            | cons w2 ws2 =>
              cases w2 <;>
                simp [ MCPProcess.send_initialize, MCPProcess.next_message_id,
                  MCPProcess.track_request, MCPProcess.send_message_sync,
                  MCPProcess.read_response, collect_stderr_stdin, collect_stderr_written,
                  hws, hstdout, hl]
          | writeErr m =>
            simp [ MCPProcess.send_initialize, MCPProcess.next_message_id,
              MCPProcess.track_request, MCPProcess.send_message_sync,
              MCPProcess.read_response, collect_stderr_stdin, collect_stderr_written,
              hws, hstdout, hl]
          | flushErr m =>
            simp [ MCPProcess.send_initialize, MCPProcess.next_message_id,
              MCPProcess.track_request, MCPProcess.send_message_sync,
              MCPProcess.read_response, collect_stderr_stdin, collect_stderr_written,
              hws, hstdout, hl]
      | error err =>
        cases ws with
        | nil =>
          simp [ MCPProcess.send_initialize, MCPProcess.next_message_id,
            MCPProcess.track_request, MCPProcess.send_message_sync,
            MCPProcess.read_response, collect_stderr_stdin, collect_stderr_written,
            hws, hstdout, hl]
        | cons w1 ws1 =>
          cases w1 with
          | ok =>
            cases ws1 with
            | nil =>
              simp [ MCPProcess.send_initialize, MCPProcess.next_message_id,
                MCPProcess.track_request, MCPProcess.send_message_sync,
                MCPProcess.read_response, collect_stderr_stdin, collect_stderr_written,
                hws, hstdout, hl]
            | cons w2 ws2 =>
              cases w2 <;>
                simp [ MCPProcess.send_initialize, MCPProcess.next_message_id,
                  MCPProcess.track_request, MCPProcess.send_message_sync,
                  MCPProcess.read_response, collect_stderr_stdin, collect_stderr_written,
                  hws, hstdout, hl]
          | writeErr m =>
            simp [ MCPProcess.send_initialize, MCPProcess.next_message_id,
              MCPProcess.track_request, MCPProcess.send_message_sync,
              MCPProcess.read_response, collect_stderr_stdin, collect_stderr_written,
              hws, hstdout, hl]
          | flushErr m =>
            simp [ MCPProcess.send_initialize, MCPProcess.next_message_id,
              MCPProcess.track_request, MCPProcess.send_message_sync,
              MCPProcess.read_response, collect_stderr_stdin, collect_stderr_written,
              hws, hstdout, hl]
  · intro ws hws hw1 hw2
    cases hstdout : p.stdout with
    | none =>
      cases ws with
      | nil =>
        simp [ MCPProcess.send_initialize, MCPProcess.next_message_id,
          MCPProcess.track_request, MCPProcess.send_message_sync,
          MCPProcess.read_response, collect_stderr_stdin, collect_stderr_written,
          hws, hstdout]
      | cons w1 ws1 =>
        cases w1 with
        | ok =>
          cases ws1 with
          | nil =>
            simp [ MCPProcess.send_initialize, MCPProcess.next_message_id,
              MCPProcess.track_request, MCPProcess.send_message_sync,
              MCPProcess.read_response, collect_stderr_stdin, collect_stderr_written,
              hws, hstdout]
          | cons w2 ws2 =>
            cases w2 with
            | ok =>
              simp [ MCPProcess.send_initialize, MCPProcess.next_message_id,
                MCPProcess.track_request, MCPProcess.send_message_sync,
                MCPProcess.read_response, collect_stderr_stdin, collect_stderr_written,
                hws, hstdout]
            | writeErr m => simp at hw2
            | flushErr m => simp at hw2
        | writeErr m => simp at hw1
        | flushErr m => simp at hw1
    | some evs =>
      rcases hl : readResponseLoop p.message_counter 5000 evs 0 with ⟨r, rest, cnt⟩
      cases r with
      | ok v =>
        cases ws with
        | nil =>
          simp [ MCPProcess.send_initialize, MCPProcess.next_message_id,
            MCPProcess.track_request, MCPProcess.send_message_sync,
            MCPProcess.read_response, collect_stderr_stdin, collect_stderr_written,
            hws, hstdout, hl]
        | cons w1 ws1 =>
          cases w1 with
          | ok =>
            cases ws1 with
            | nil =>
              simp [ MCPProcess.send_initialize, MCPProcess.next_message_id,
                MCPProcess.track_request, MCPProcess.send_message_sync,
                MCPProcess.read_response, collect_stderr_stdin, collect_stderr_written,
                hws, hstdout, hl]
            | cons w2 ws2 =>
              cases w2 with
              | ok =>
                simp [ MCPProcess.send_initialize, MCPProcess.next_message_id,
                  MCPProcess.track_request, MCPProcess.send_message_sync,
                  MCPProcess.read_response, collect_stderr_stdin, collect_stderr_written,
                  hws, hstdout, hl]
              | writeErr m => simp at hw2
              | flushErr m => simp at hw2
          | writeErr m => simp at hw1
          | flushErr m => simp at hw1
      | error err =>
        cases ws with
        | nil =>
          simp [ MCPProcess.send_initialize, MCPProcess.next_message_id,
            MCPProcess.track_request, MCPProcess.send_message_sync,
            MCPProcess.read_response, collect_stderr_stdin, collect_stderr_written,
            hws, hstdout, hl]
        | cons w1 ws1 =>
          cases w1 with
          | ok =>
            cases ws1 with
            | nil =>
              simp [ MCPProcess.send_initialize, MCPProcess.next_message_id,
                MCPProcess.track_request, MCPProcess.send_message_sync,
                MCPProcess.read_response, collect_stderr_stdin, collect_stderr_written,
                hws, hstdout, hl]
            | cons w2 ws2 =>
              cases w2 with
              | ok =>
                simp [ MCPProcess.send_initialize, MCPProcess.next_message_id,
                  MCPProcess.track_request, MCPProcess.send_message_sync,
                  MCPProcess.read_response, collect_stderr_stdin, collect_stderr_written,
                  hws, hstdout, hl]
              | writeErr m => simp at hw2
              | flushErr m => simp at hw2
          | writeErr m => simp at hw1
          | flushErr m => simp at hw1

/-- Witness for C5: on a session whose initialize-reply read fails with
stdout end-of-file, `send_initialize` still succeeds (both writes succeed)
and both the request and the notification are delivered. -/
theorem send_initialize_write_failures_only_witness :
    (( MCPProcess.send_initialize c5Proc).1 = .ok () ↔
      (([] : List WriteResult).headD WriteResult.ok = WriteResult.ok ∧
        ([] : List WriteResult).tail.headD WriteResult.ok = WriteResult.ok)) ∧
    (( MCPProcess.send_initialize c5Proc).2).written =
      c5Proc.written ++ [initMessage c5Proc.message_counter, initializedNotification] :=
  ⟨(send_initialize_write_failures_only c5Proc).2.1 [] rfl,
    (send_initialize_write_failures_only c5Proc).2.2 [] rfl rfl rfl⟩

/-- When the command is not `node`/`npx`, or the Node.js probe reports a
working installation, `start` proceeds to the spawn phase. -/
theorem start_probe_skip_or_ok (p : MCPProcess) (command : String)
    (args : List String) (env : StartEnv)
    (h : (command ≠ "node" ∧ command ≠ "npx") ∨
      (∃ v, env.nodeProbe = NodeProbe.works v)) :
    p.start command args env = p.startSpawn command args env := by
  unfold MCPProcess.start
  rcases h with ⟨h1, h2⟩ | ⟨v, hv⟩
  · have hb : (command == "node" || command == "npx") = false := by simp [h1, h2]
    simp [hb]
  · cases hb : (command == "node" || command == "npx") with
    | false => simp [hb]
    | true => simp [hb, hv, check_nodejs_availability]

/-- C6: `start` fails before any spawn with `NODE_NOT_FOUND` when the
`node --version` probe cannot run for a `node`/`npx` command, and with
`NODE_NOT_WORKING` when the probe ran but exited nonzero; a spawn failure
whose OS message mentions *no such file* or *not found* becomes
`Command/CMD_NOT_FOUND`, one mentioning *permission denied* becomes
`Permission/PERMISSION_DENIED`, and any other spawn failure becomes
`NODE_START_FAILED`, `PYTHON_START_FAILED`, or `COMMAND_START_FAILED` by
command kind, carrying the raw OS message as details. -/
theorem start_error_translation (p : MCPProcess) (command : String)
    (args : List String) (env : StartEnv) :
    ((command = "node" ∨ command = "npx") → env.nodeProbe = NodeProbe.failsToRun →
      p.start command args env = (.error nodeNotFoundError, p)) ∧
    ((command = "node" ∨ command = "npx") → env.nodeProbe = NodeProbe.exitsNonzero →
      p.start command args env = (.error nodeNotWorkingError, p)) ∧
    (∀ msg, ((command ≠ "node" ∧ command ≠ "npx") ∨
        (∃ v, env.nodeProbe = NodeProbe.works v)) →
      env.spawn = .error msg →
      (strContains (toLowerStr msg) "no such file" ||
        strContains (toLowerStr msg) "not found") = true →
      p.start command args env =
        (.error (ProtocollieError.command_not_found command), p)) ∧
    (∀ msg, ((command ≠ "node" ∧ command ≠ "npx") ∨
        (∃ v, env.nodeProbe = NodeProbe.works v)) →
      env.spawn = .error msg →
      (strContains (toLowerStr msg) "no such file" ||
        strContains (toLowerStr msg) "not found") = false →
      strContains (toLowerStr msg) "permission denied" = true →
      p.start command args env =
        (.error (ProtocollieError.permission_denied
          ("command " ++ sQuote ++ command ++ sQuote)), p)) ∧
    (∀ msg, (command = "node" ∨ command = "npx") →
      (∃ v, env.nodeProbe = NodeProbe.works v) →
      env.spawn = .error msg →
      (strContains (toLowerStr msg) "no such file" ||
        strContains (toLowerStr msg) "not found") = false →
      strContains (toLowerStr msg) "permission denied" = false →
      p.start command args env = (.error (nodeStartFailedError command msg), p) ∧
      (nodeStartFailedError command msg).details = some msg) ∧
    (∀ msg, (command = "python" ∨ command = "python3") →
      env.spawn = .error msg →
      (strContains (toLowerStr msg) "no such file" ||
        strContains (toLowerStr msg) "not found") = false →
      strContains (toLowerStr msg) "permission denied" = false →
      p.start command args env = (.error (pythonStartFailedError command msg), p) ∧
      (pythonStartFailedError command msg).details = some msg) ∧
    (∀ msg, command ≠ "node" → command ≠ "npx" → command ≠ "python" →
      command ≠ "python3" →
      env.spawn = .error msg →
      (strContains (toLowerStr msg) "no such file" ||
        strContains (toLowerStr msg) "not found") = false →
      strContains (toLowerStr msg) "permission denied" = false →
      p.start command args env = (.error (commandStartFailedError command msg), p) ∧
      (commandStartFailedError command msg).details = some msg) := by
  refine ⟨?_, ?_, ?_, ?_, ?_, ?_, ?_⟩
  · intro hcmd hprobe
    have hb : (command == "node" || command == "npx") = true := by
      rcases hcmd with h | h <;> simp [h]
    unfold MCPProcess.start
    simp [hb, hprobe, check_nodejs_availability]
  · intro hcmd hprobe
    have hb : (command == "node" || command == "npx") = true := by
      rcases hcmd with h | h <;> simp [h]
    unfold MCPProcess.start
    simp [hb, hprobe, check_nodejs_availability]
  · intro msg hok hspawn hpat
    rw [start_probe_skip_or_ok p command args env hok]
    unfold MCPProcess.startSpawn
    simp [hspawn, spawnErrorToStructured, hpat]
  · intro msg hok hspawn hpat1 hpat2
    rw [start_probe_skip_or_ok p command args env hok]
    unfold MCPProcess.startSpawn
    simp [hspawn, spawnErrorToStructured, hpat1, hpat2]
  · intro msg hcmd hprobe hspawn hpat1 hpat2
    rw [start_probe_skip_or_ok p command args env (Or.inr hprobe)]
    have hb : (command == "node" || command == "npx") = true := by
      rcases hcmd with h | h <;> simp [h]
    unfold MCPProcess.startSpawn
    refine ⟨?_, rfl⟩
    simp [hspawn, spawnErrorToStructured, hpat1, hpat2, hb]
  · intro msg hcmd hspawn hpat1 hpat2
    have hnn : command ≠ "node" ∧ command ≠ "npx" := by
      rcases hcmd with h | h <;> subst h <;> exact ⟨by decide, by decide⟩
    rw [start_probe_skip_or_ok p command args env (Or.inl hnn)]
    have hb : (command == "node" || command == "npx") = false := by
      simp [hnn.1, hnn.2]
    have hpy : (command == "python" || command == "python3") = true := by
      rcases hcmd with h | h <;> simp [h]
    unfold MCPProcess.startSpawn
    refine ⟨?_, rfl⟩
    simp [hspawn, spawnErrorToStructured, hpat1, hpat2, hb, hpy]
  · intro msg hn hnp hpy hpy3 hspawn hpat1 hpat2
    rw [start_probe_skip_or_ok p command args env (Or.inl ⟨hn, hnp⟩)]
    have hb : (command == "node" || command == "npx") = false := by simp [hn, hnp]
    have hpyb : (command == "python" || command == "python3") = false := by
      simp [hpy, hpy3]
    unfold MCPProcess.startSpawn
    refine ⟨?_, rfl⟩
    simp [hspawn, spawnErrorToStructured, hpat1, hpat2, hb, hpyb]

/-- Witness for C6: a failing Node.js probe fails `start` for `node` before
any spawn, and a spawn failure with an OS "No such file" message is
translated to `CMD_NOT_FOUND`. -/
theorem start_error_translation_witness :
    (MCPProcess.new "w").start "node" []
        ⟨NodeProbe.failsToRun, .error "spawn never reached"⟩
      = (.error nodeNotFoundError, MCPProcess.new "w") ∧
    (MCPProcess.new "w").start "foo" []
        ⟨NodeProbe.works "v20.0.0", .error "No such file or directory (os error 2)"⟩
      = (.error (ProtocollieError.command_not_found "foo"), MCPProcess.new "w") :=
  ⟨(start_error_translation (MCPProcess.new "w") "node" []
      ⟨NodeProbe.failsToRun, .error "spawn never reached"⟩).1 (Or.inl rfl) rfl,
    (start_error_translation (MCPProcess.new "w") "foo" []
      ⟨NodeProbe.works "v20.0.0", .error "No such file or directory (os error 2)"⟩).2.2.1
      "No such file or directory (os error 2)"
      (Or.inl ⟨by decide, by decide⟩) rfl (by decide)⟩

/-- A successful match is exactly a JSON value with an `id` field whose u64
value is the expected id. -/
theorem jsonIdMatches_iff (j : Json) (eid : Nat) :
    jsonIdMatches (some j) eid = true ↔
      ∃ v, j.get "id" = some v ∧ v.as_u64 = some eid := by
  unfold jsonIdMatches
  cases hg : j.get "id" with
  | none => simp [hg]
  | some rid => simp [hg]

/-- The reader loop returns `Ok` only on a JSON value whose `id` matches the
expected id. -/
theorem readResponseLoop_ok_matches (expected_id timeout_ms : Nat) :
    ∀ evs count j rest cnt,
      readResponseLoop expected_id timeout_ms evs count = (.ok j, rest, cnt) →
      jsonIdMatches (some j) expected_id = true := by
  intro evs
  induction evs with
  | nil => intro count j rest cnt h; simp [readResponseLoop] at h
  | cons ev tl ih =>
    intro count j rest cnt h
    cases ev with
    | eof => simp [readResponseLoop] at h
    | readErr m => simp [readResponseLoop] at h
    | line raw parsed =>
      simp only [readResponseLoop] at h
      by_cases ht : (strTrim raw).isEmpty = true
      · rw [if_pos ht] at h
        exact ih _ _ _ _ h
      · rw [if_neg ht] at h
        cases parsed with
        | none => exact ih _ _ _ _ h
        | some json =>
          dsimp only at h
          cases hg : json.get "id" with
          | none =>
            rw [hg] at h
            dsimp only at h
            exact ih _ _ _ _ h
          | some rid =>
            rw [hg] at h
            dsimp only at h
            cases hm : (rid.as_u64 == some expected_id) with
            | false =>
              rw [hm] at h
              simp only [Bool.false_eq_true, if_false] at h
              exact ih _ _ _ _ h
            | true =>
              rw [hm] at h
              simp only [if_true] at h
              simp at h
              obtain ⟨hj, _, _⟩ := h
              subst hj
              simp [jsonIdMatches, hg, hm]

/-- C4: a successful `read_response` returns only a JSON value whose `id`
field equals the expected id; a line whose trimmed text is empty is skipped
without counting, any other non-matching line (non-JSON, id-less
notification, or differing id) is dropped, counted, and the loop continues;
a zero-length read yields `Connection/STDOUT_CLOSED`; a read error yields
`Connection/READ_FAILED`; reaching the deadline with no match yields
`Timeout/CONNECTION_TIMEOUT` whose details report how many lines were
consumed; and a session without captured stdout yields
`Connection/NO_STDOUT`. -/
theorem read_response_correlation (expected_id timeout_ms : Nat) :
    (∀ (p : MCPProcess) (j : Json) (p2 : MCPProcess),
      p.read_response expected_id timeout_ms = (.ok j, p2) →
      ∃ v, j.get "id" = some v ∧ v.as_u64 = some expected_id) ∧
    (∀ (evs : List ReadEvent) (count : Nat),
      readResponseLoop expected_id timeout_ms (ReadEvent.eof :: evs) count =
      (.error stdoutClosedError, evs, count)) ∧
    (∀ (evs : List ReadEvent) (count : Nat) (m : String),
      readResponseLoop expected_id timeout_ms (ReadEvent.readErr m :: evs) count =
      (.error (readFailedError m), evs, count)) ∧
    (∀ (count : Nat), readResponseLoop expected_id timeout_ms [] count =
      (.error (readTimeoutError expected_id timeout_ms count), [], count)) ∧
    (∀ (evs : List ReadEvent) (count : Nat) (raw : String) (parsed : Option Json),
      (strTrim raw).isEmpty = true →
      readResponseLoop expected_id timeout_ms (ReadEvent.line raw parsed :: evs) count =
      readResponseLoop expected_id timeout_ms evs count) ∧
    (∀ (evs : List ReadEvent) (count : Nat) (raw : String) (parsed : Option Json),
      (strTrim raw).isEmpty = false →
      jsonIdMatches parsed expected_id = false →
      readResponseLoop expected_id timeout_ms (ReadEvent.line raw parsed :: evs) count =
      readResponseLoop expected_id timeout_ms evs (count + 1)) ∧
    (∀ (p : MCPProcess), p.stdout = none →
      p.read_response expected_id timeout_ms = (.error noStdoutError, p)) := by
  refine ⟨?_, ?_, ?_, ?_, ?_, ?_, ?_⟩
  · intro p j p2 h
    unfold MCPProcess.read_response at h
    cases hs : p.stdout with
    | none => rw [hs] at h; simp at h
    | some evs =>
      rw [hs] at h
      dsimp only at h
      rcases hl : readResponseLoop expected_id timeout_ms evs 0 with ⟨r, rest, cnt⟩
      rw [hl] at h
      have hr : r = .ok j := congrArg Prod.fst h
      subst hr
      exact (jsonIdMatches_iff j expected_id).mp
        (readResponseLoop_ok_matches expected_id timeout_ms evs 0 j rest cnt hl)
  · intro evs count; rfl
  · intro evs count m; rfl
  · intro count; rfl
  · intro evs count raw parsed ht
    simp only [readResponseLoop]
    rw [if_pos ht]
  · intro evs count raw parsed ht hm
    simp only [readResponseLoop]
    rw [if_neg (by simp [ht])]
    cases parsed with
    | none => rfl
    | some json =>
      dsimp only
      simp only [jsonIdMatches] at hm
      cases hg : json.get "id" with
      | none => rfl
      | some rid =>
        rw [hg] at hm
        dsimp only at hm
        dsimp only
        rw [if_neg (by simp [hm])]
  · intro p h
    unfold MCPProcess.read_response
    rw [h]

/-- Witness for C4: on a stream holding an empty line, a notification, a
differing id, and the correlated reply with id 7, `read_response` returns the
reply with id 7; skipping, dropping with counting, and the missing-stdout
error are exhibited on concrete inputs. -/
theorem read_response_correlation_witness :
    (∃ v, c4Match.get "id" = some v ∧ v.as_u64 = some 7) ∧
    readResponseLoop 7 5000 [ReadEvent.line " " none] 0 =
      readResponseLoop 7 5000 [] 0 ∧
    readResponseLoop 7 5000
        [ReadEvent.line "other" (some (Json.obj [("id", Json.num 3)]))] 2 =
      readResponseLoop 7 5000 [] 3 ∧
    ({ MCPProcess.new "s" with stdout := none } : MCPProcess).read_response 7 5000 =
      (.error noStdoutError, { MCPProcess.new "s" with stdout := none }) :=
  ⟨(read_response_correlation 7 5000).1 c4Proc c4Match
      ((c4Proc.read_response 7 5000).2) rfl,
    (read_response_correlation 7 5000).2.2.2.2.1 [] 0 " " none rfl,
    (read_response_correlation 7 5000).2.2.2.2.2.1 [] 2 "other"
      (some (Json.obj [("id", Json.num 3)])) rfl rfl,
    (read_response_correlation 7 5000).2.2.2.2.2.2
      ({ MCPProcess.new "s" with stdout := none } : MCPProcess) rfl⟩

